import Mathlib

/-!
Verification development for the Hatheq / TruthScope interview-assistance
tool.  The definitions below are a shallow embedding of the streaming
signal-aggregation and scoring engine:

* the per-frame stress formula and observation records built in
  `src/react-app/components/FacialAnalysis.tsx` (`startAnalysis`,
  `predictWithTensorFlowModel`), and
* the end-of-session aggregation and credibility scoring performed in the
  session page's `saveRecording` function.

JavaScript numbers are modelled by `ℚ`; JavaScript objects used as
string-keyed probability maps are modelled by association lists
`List (String × ℚ)` with the `x[k] || 0` lookup convention.
-/

/-- `eyeData` record extracted from the face landmarker blendshapes. -/
structure EyeData where
  leftEyeBlink : ℚ
  rightEyeBlink : ℚ
  eyeLookDown : ℚ
  eyeLookUp : ℚ
deriving Repr, DecidableEq

/-- `expressionData` record extracted from the face landmarker blendshapes. -/
structure ExpressionData where
  mouthSmile : ℚ
  mouthFrown : ℚ
  browFurrow : ℚ
  jawOpen : ℚ
deriving Repr, DecidableEq

/-- Per-frame stress value, computed in `startAnalysis`:
`(leftEyeBlink + rightEyeBlink) / 2 * 0.3 + browFurrow * 0.4 + mouthFrown * 0.3`. -/
def stress (eye : EyeData) (expr : ExpressionData) : ℚ :=
  (eye.leftEyeBlink + eye.rightEyeBlink) / 2 * (3 / 10) +
    expr.browFurrow * (4 / 10) +
    expr.mouthFrown * (3 / 10)

/-- An expression prediction `{expression, probabilities}` as produced by
`predictWithTensorFlowModel` and stored on an analysis record. -/
structure ExpressionPrediction where
  expression : String
  probabilities : List (String × ℚ)
deriving Repr, DecidableEq

/-- An authenticity prediction `{authenticity, probabilities}`. -/
structure AuthenticityPrediction where
  authenticity : String
  probabilities : List (String × ℚ)
deriving Repr, DecidableEq

/-- One entry of `analysisDataRef.current`: one processed frame's signals. -/
structure ObservationRecord where
  timestamp : String
  eyeData : EyeData
  expressionData : ExpressionData
  stressScore : ℚ
  expressionPrediction : Option ExpressionPrediction
  authenticityPrediction : Option AuthenticityPrediction
deriving Repr, DecidableEq

/-- JavaScript `obj[key] || 0` lookup on a probability map. -/
def lookupProb (ps : List (String × ℚ)) (l : String) : ℚ :=
  (ps.lookup l).getD 0

/-- The 7 fixed expression labels, in source enumeration order. -/
def expressionLabels : List String :=
  ["Angry", "Disgust", "Fear", "Happy", "Neutral", "Sad", "Surprise"]

/-- The 2 fixed authenticity labels, in source enumeration order. -/
def authenticityLabels : List String := ["Fake", "Genuine"]

/-- The negative expression set used by the credibility deduction. -/
def negativeExpressions : List String := ["Angry", "Disgust", "Fear", "Sad"]

/-- The reducer `(a, b) => avgProbs[a] > avgProbs[b] ? a : b`. -/
def jsMaxStep (p : String → ℚ) (a b : String) : String :=
  if p a > p b then a else b

/-- `Object.keys(avgProbs).reduce((a, b) => avgProbs[a] > avgProbs[b] ? a : b)`:
JavaScript reduce-argmax over a key list.  (JS `reduce` on an empty array
throws; the source only applies it to the fixed non-empty label lists.) -/
def argmaxJS (p : String → ℚ) : List String → String
  | [] => ""
  | l :: ls => ls.foldl (jsMaxStep p) l

/-- `analysisDataRef.current.filter(d => d.expressionPrediction)`. -/
def framesWithExpression (series : List ObservationRecord) : List ObservationRecord :=
  series.filter (fun r => r.expressionPrediction.isSome)

/-- `analysisDataRef.current.filter(d => d.authenticityPrediction)`. -/
def framesWithAuthenticity (series : List ObservationRecord) : List ObservationRecord :=
  series.filter (fun r => r.authenticityPrediction.isSome)

/-- The chronologically last expression prediction, or `null`. -/
def lastExpression (series : List ObservationRecord) : Option ExpressionPrediction :=
  match (framesWithExpression series).getLast? with
  | some r => r.expressionPrediction
  | none => none

/-- The chronologically last authenticity prediction, or `null`. -/
def lastAuthenticity (series : List ObservationRecord) : Option AuthenticityPrediction :=
  match (framesWithAuthenticity series).getLast? with
  | some r => r.authenticityPrediction
  | none => none

/-- `frame.expressionPrediction?.probabilities[label] || 0`: one record's
contribution to an expression label's mean. -/
def exprProbOf (label : String) (r : ObservationRecord) : ℚ :=
  match r.expressionPrediction with
  | some pr => lookupProb pr.probabilities label
  | none => 0

/-- `frame.authenticityPrediction?.probabilities[label] || 0`. -/
def authProbOf (label : String) (r : ObservationRecord) : ℚ :=
  match r.authenticityPrediction with
  | some pr => lookupProb pr.probabilities label
  | none => 0

/-- Mean of one expression label's probability over the frames that carry an
expression prediction (`frame.expressionPrediction?.probabilities[label] || 0`
summed by `reduce` and divided by the filtered length). -/
def avgExprProb (series : List ObservationRecord) (label : String) : ℚ :=
  ((framesWithExpression series).foldl (fun acc r => acc + exprProbOf label r) 0) /
    ((framesWithExpression series).length : ℚ)

/-- Mean of one authenticity label's probability over the frames that carry an
authenticity prediction. -/
def avgAuthProb (series : List ObservationRecord) (label : String) : ℚ :=
  ((framesWithAuthenticity series).foldl (fun acc r => acc + authProbOf label r) 0) /
    ((framesWithAuthenticity series).length : ℚ)

/-- `averageExpression`: `null` when no frame carries an expression
prediction, otherwise the per-label mean map together with the JS argmax
over the 7 fixed labels. -/
def averageExpression (series : List ObservationRecord) : Option ExpressionPrediction :=
  if (framesWithExpression series).length = 0 then none
  else
    some
      { expression := argmaxJS (avgExprProb series) expressionLabels
        probabilities := expressionLabels.map (fun l => (l, avgExprProb series l)) }

/-- `averageAuthenticity`: `null` when no frame carries an authenticity
prediction, otherwise the per-label mean map together with the JS argmax
over the 2 fixed labels. -/
def averageAuthenticity (series : List ObservationRecord) : Option AuthenticityPrediction :=
  if (framesWithAuthenticity series).length = 0 then none
  else
    some
      { authenticity := argmaxJS (avgAuthProb series) authenticityLabels
        probabilities := authenticityLabels.map (fun l => (l, avgAuthProb series l)) }

/-- `avgStress`: mean stress over the whole series, `0` when it is empty. -/
def avgStress (series : List ObservationRecord) : ℚ :=
  if series.length = 0 then 0
  else (series.foldl (fun s r => s + r.stressScore) 0) / (series.length : ℚ)

/-- `Math.max(...)` over a non-empty list (the source guards the empty case). -/
def listMax : List ℚ → ℚ
  | [] => 0
  | x :: xs => xs.foldl max x

/-- `Math.min(...)` over a non-empty list (the source guards the empty case). -/
def listMin : List ℚ → ℚ
  | [] => 0
  | x :: xs => xs.foldl min x

/-- `maxStress`: maximum stress over the series, `0` when it is empty. -/
def maxStress (series : List ObservationRecord) : ℚ :=
  if series.length = 0 then 0 else listMax (series.map (·.stressScore))

/-- `minStressScore`: minimum stress over the series, `0` when it is empty. -/
def minStress (series : List ObservationRecord) : ℚ :=
  if series.length = 0 then 0 else listMin (series.map (·.stressScore))

/-- The credibility value after the three deductions, before the
`Math.max(0, Math.min(100, ...))` clamp. -/
def credibilityBeforeClamp (series : List ObservationRecord) : ℚ :=
  let s1 : ℚ := 100 - avgStress series * 40
  let s2 : ℚ :=
    match averageAuthenticity series with
    | some a => s1 - (1 - lookupProb a.probabilities "Genuine") * 30
    | none => s1
  match averageExpression series with
  | some e =>
      if e.expression ∈ negativeExpressions then
        s2 - lookupProb e.probabilities e.expression * 30
      else s2
  | none => s2

/-- `credibilityScore = Math.max(0, Math.min(100, credibilityScore))`. -/
def clampedCredibility (series : List ObservationRecord) : ℚ :=
  max 0 (min 100 (credibilityBeforeClamp series))

/-- JavaScript `Math.round`: floor of `x + 1/2`. -/
def jsRound (q : ℚ) : ℤ := ⌊q + 1 / 2⌋

/-- The status bucket, computed in the source from the clamped (un-rounded)
credibility value: default `high`, `< 40` low, `< 70` medium. -/
def statusOf (series : List ObservationRecord) : String :=
  if clampedCredibility series < 40 then "low"
  else if clampedCredibility series < 70 then "medium"
  else "high"

/-- The Arabic status label, computed alongside `statusOf`. -/
def statusArOf (series : List ObservationRecord) : String :=
  if clampedCredibility series < 40 then "منخفضة"
  else if clampedCredibility series < 70 then "متوسطة"
  else "عالية"

/-- The `finalResult` object of `analysisResults`. -/
structure FinalResult where
  credibilityScore : ℤ
  status : String
  statusAr : String
  summary : String
deriving Repr, DecidableEq

/-- The `summary` object of `analysisResults` (detailed stress metrics). -/
structure StressSummary where
  averageStressScore : ℚ
  maxStressScore : ℚ
  minStressScore : ℚ
deriving Repr, DecidableEq

/-- A `{last, average}` pair for one prediction axis. -/
structure AxisSummary (π : Type) where
  last : Option π
  average : Option π
deriving Repr, DecidableEq

/-- The `analysisResults` payload assembled by `saveRecording` (the fields
derived from the observation series). -/
structure AnalysisResults where
  finalResult : FinalResult
  totalFrames : ℕ
  summary : StressSummary
  expression : AxisSummary ExpressionPrediction
  authenticity : AxisSummary AuthenticityPrediction
deriving Repr, DecidableEq

/-- The aggregation performed by `saveRecording` on the accumulated series:
stress statistics, expression/authenticity aggregates, credibility score,
status bucket and summary string. -/
def buildAnalysisResults (series : List ObservationRecord) : AnalysisResults :=
  { finalResult :=
      { credibilityScore := jsRound (clampedCredibility series)
        status := statusOf series
        statusAr := statusArOf series
        summary :=
          "مصداقية " ++ statusArOf series ++ " (" ++
            toString (jsRound (clampedCredibility series)) ++ "/100)" }
    totalFrames := series.length
    summary :=
      { averageStressScore := avgStress series
        maxStressScore := maxStress series
        minStressScore := minStress series }
    expression :=
      { last := lastExpression series
        average := averageExpression series }
    authenticity :=
      { last := lastAuthenticity series
        average := averageAuthenticity series } }

/-! ## The frame-analysis loop of `FacialAnalysis.tsx` -/

/-- One axis `{label, probabilities}` of the remote classifier's response. -/
structure PredictResponseAxis where
  label : String
  probabilities : List (String × ℚ)
deriving Repr, DecidableEq

/-- The remote classifier's response body `{expression, authenticity}`. -/
structure PredictResponse where
  expression : PredictResponseAxis
  authenticity : PredictResponseAxis
deriving Repr, DecidableEq

/-- `predictWithTensorFlowModel`: returns `null` when no model is available
(`!tfModel`), and on any failure of the remote call (network error,
non-`ok` HTTP status, malformed body — all raised and caught by the
surrounding `try`/`catch`, which logs and returns `null`).  On success the
response is repacked into the two prediction records.  The outcome of the
network interaction is passed in explicitly as an `Except`. -/
def predictWithTensorFlowModel (tfModel : Bool)
    (outcome : Except String PredictResponse) :
    Option (ExpressionPrediction × AuthenticityPrediction) :=
  if tfModel then
    match outcome with
    | .ok r =>
        some
          ({ expression := r.expression.label
             probabilities := r.expression.probabilities },
           { authenticity := r.authenticity.label
             probabilities := r.authenticity.probabilities })
    | .error _ => none
  else none

/-- The per-frame environment consumed by one iteration of `analyze`: the
blendshape extraction result (`none` when the landmarker reports no face)
and the outcome the classifier call would have on this frame. -/
structure FrameInput where
  timestamp : String
  face : Option (EyeData × ExpressionData)
  classifierOutcome : Except String PredictResponse
deriving Repr

/-- What one iteration of `analyze` produces: the observation record
appended to `analysisDataRef` (if any) and whether the classifier was
invoked on this frame. -/
structure StepOut where
  record : Option ObservationRecord
  invoked : Bool
deriving Repr

/-- One iteration of the `analyze` loop at frame counter `frameCount`:
the classifier is called only when `tfModel && frameCount % 10 === 0`;
an observation record is emitted only when a face (with blendshapes) was
detected, carrying the predictions if the call was made and succeeded. -/
def analyzeFrame (tfModel : Bool) (frameCount : ℕ) (f : FrameInput) : StepOut :=
  let invoked := tfModel && frameCount % 10 == 0
  let preds :=
    if invoked then predictWithTensorFlowModel tfModel f.classifierOutcome
    else none
  { record :=
      match f.face with
      | some (eye, expr) =>
          some
            { timestamp := f.timestamp
              eyeData := eye
              expressionData := expr
              stressScore := stress eye expr
              expressionPrediction := preds.map Prod.fst
              authenticityPrediction := preds.map Prod.snd }
      | none => none
    invoked := invoked }

/-- The `analyze` loop from frame counter `k` on. -/
def runAnalysisFrom (tfModel : Bool) (k : ℕ) : List FrameInput → List StepOut
  | [] => []
  | f :: fs => analyzeFrame tfModel k f :: runAnalysisFrom tfModel (k + 1) fs

/-- The `analyze` loop over a sequence of processed frames, starting from
`frameCount = 0` as `startAnalysis` does. -/
def runAnalysis (tfModel : Bool) (frames : List FrameInput) : List StepOut :=
  runAnalysisFrom tfModel 0 frames

/-- The step outcome of the `i`-th processed frame. -/
def outAt (tfModel : Bool) (frames : List FrameInput) (i : ℕ) : StepOut :=
  (runAnalysis tfModel frames).getD i { record := none, invoked := false }

/-- The observation series accumulated in `analysisDataRef` by a run:
exactly the emitted records, in capture order. -/
def seriesOf (tfModel : Bool) (frames : List FrameInput) : List ObservationRecord :=
  (runAnalysis tfModel frames).filterMap (·.record)

/-! ## The state effect of `saveRecording` (chunk/series clearing) -/

/-- The two refs `saveRecording` mutates: `recordedChunksRef` (modelled by
the chunk byte sizes) and `analysisDataRef`. -/
structure RecorderState where
  recordedChunks : List ℕ
  analysisData : List ObservationRecord
deriving Repr

/-- The state effect of `saveRecording`: when no video chunks were
recorded it logs and returns early, touching nothing; otherwise the whole
body runs inside `try`/`catch`/`finally` whose `finally` clears both refs,
so both are emptied whether the body succeeds or throws.  `bodyOutcome`
stands for the outcome of building/persisting the summary. -/
def saveRecordingState (st : RecorderState)
    (bodyOutcome : Except String Unit) : RecorderState :=
  if st.recordedChunks.length = 0 then st
  else
    match bodyOutcome with
    | .ok _ => { recordedChunks := [], analysisData := [] }
    | .error _ => { recordedChunks := [], analysisData := [] }

/-! ## Spec-side restatement of the credibility formula (for refinement) -/

/-- Modelled from the spec wording of the credibility computation (§4.5
step 4): start at 100; subtract `averageStress * 40`; if an aggregate
authenticity exists subtract `(1 - mean probability of Genuine) * 30`,
a missing per-record `Genuine` probability counting as 0; if an aggregate
expression exists with a label in `{Angry, Disgust, Fear, Sad}` subtract
`(mean probability of that label) * 30`; clamp to `[0, 100]`; round to the
nearest integer. -/
def specCredibilityScore (series : List ObservationRecord) : ℤ :=
  let s1 : ℚ := 100 - avgStress series * 40
  let s2 : ℚ :=
    if (averageAuthenticity series).isSome then
      s1 - (1 - avgAuthProb series "Genuine") * 30
    else s1
  let s3 : ℚ :=
    match averageExpression series with
    | some e =>
        if e.expression ∈ negativeExpressions then
          s2 - avgExprProb series e.expression * 30
        else s2
    | none => s2
  jsRound (min 100 (max 0 s3))

/-! ## Well-formedness of an observation record -/

/-- A record whose stress score and all stored prediction probabilities lie
in `[0, 1]`. -/
def WellFormedRecord (r : ObservationRecord) : Prop :=
  0 ≤ r.stressScore ∧ r.stressScore ≤ 1 ∧
  (∀ pr, r.expressionPrediction = some pr →
    ∀ l v, (l, v) ∈ pr.probabilities → 0 ≤ v ∧ v ≤ 1) ∧
  (∀ pr, r.authenticityPrediction = some pr →
    ∀ l v, (l, v) ∈ pr.probabilities → 0 ≤ v ∧ v ≤ 1)

/-! ## Concrete sample data used to instantiate the theorems -/

/-- All-zero eye data. -/
def zeroEye : EyeData := ⟨0, 0, 0, 0⟩

/-- All-zero expression data. -/
def zeroExpr : ExpressionData := ⟨0, 0, 0, 0⟩

/-- A prediction-free record with stress score `0.76`. -/
def rec76 : ObservationRecord :=
  { timestamp := "t0"
    eyeData := zeroEye
    expressionData := zeroExpr
    stressScore := 76 / 100
    expressionPrediction := none
    authenticityPrediction := none }

/-- A record whose authenticity probabilities tie at `0.5`/`0.5`. -/
def recTie : ObservationRecord :=
  { timestamp := "t1"
    eyeData := zeroEye
    expressionData := zeroExpr
    stressScore := 0
    expressionPrediction := none
    authenticityPrediction := some ⟨"Fake", [("Fake", 1 / 2), ("Genuine", 1 / 2)]⟩ }

/-- A record carrying both predictions, with a tied authenticity map. -/
def recBoth : ObservationRecord :=
  { timestamp := "t2"
    eyeData := zeroEye
    expressionData := zeroExpr
    stressScore := 0
    expressionPrediction := some ⟨"Happy", [("Happy", 1)]⟩
    authenticityPrediction := some ⟨"Fake", [("Fake", 1 / 2), ("Genuine", 1 / 2)]⟩ }

/-- A successful classifier response. -/
def cResp : PredictResponse :=
  { expression := { label := "Neutral", probabilities := [("Neutral", 1)] }
    authenticity := { label := "Genuine", probabilities := [("Genuine", 1)] } }

/-- A frame with a detected face and a succeeding classifier call. -/
def cFrame : FrameInput :=
  { timestamp := "t", face := some (zeroEye, zeroExpr), classifierOutcome := .ok cResp }

/-- A frame with a detected face whose classifier call fails. -/
def failFrame : FrameInput :=
  { timestamp := "t", face := some (zeroEye, zeroExpr),
    classifierOutcome := .error "network error" }

/-- Default frame used for out-of-range `getD` reads. -/
def noFrame : FrameInput :=
  { timestamp := "", face := none, classifierOutcome := .error "" }

/-- The record the analysis loop emits for `failFrame` at frame 0. -/
def failRecord : ObservationRecord :=
  { timestamp := "t"
    eyeData := zeroEye
    expressionData := zeroExpr
    stressScore := stress zeroEye zeroExpr
    expressionPrediction := none
    authenticityPrediction := none }

/-! ## Helper lemmas -/

theorem foldl_add_eq {α : Type} (g : α → ℚ) (l : List α) :
    ∀ a : ℚ, l.foldl (fun s r => s + g r) a = a + (l.map g).sum := by
  induction l with
  | nil => intro a; simp
  | cons x xs ih =>
      intro a
      simp only [List.foldl_cons, List.map_cons, List.sum_cons, ih, add_assoc]

theorem foldl_max_bounds (l : List ℚ) :
    ∀ a : ℚ, a ≤ l.foldl max a ∧ ∀ x ∈ l, x ≤ l.foldl max a := by
  induction l with
  | nil => intro a; exact ⟨le_refl a, by simp⟩
  | cons c xs ih =>
      intro a
      obtain ⟨h1, h2⟩ := ih (max a c)
      simp only [List.foldl_cons]
      refine ⟨le_trans (le_max_left a c) h1, ?_⟩
      intro x hx
      rcases List.mem_cons.mp hx with rfl | hx
      · exact le_trans (le_max_right a x) h1
      · exact h2 x hx

theorem foldl_min_bounds (l : List ℚ) :
    ∀ a : ℚ, l.foldl min a ≤ a ∧ ∀ x ∈ l, l.foldl min a ≤ x := by
  induction l with
  | nil => intro a; exact ⟨le_refl a, by simp⟩
  | cons c xs ih =>
      intro a
      obtain ⟨h1, h2⟩ := ih (min a c)
      simp only [List.foldl_cons]
      refine ⟨le_trans h1 (min_le_left a c), ?_⟩
      intro x hx
      rcases List.mem_cons.mp hx with rfl | hx
      · exact le_trans h1 (min_le_right a x)
      · exact h2 x hx

theorem le_listMax {l : List ℚ} {x : ℚ} (hx : x ∈ l) : x ≤ listMax l := by
  cases l with
  | nil => cases hx
  | cons c xs =>
      obtain ⟨h1, h2⟩ := foldl_max_bounds xs c
      simp only [listMax]
      rcases List.mem_cons.mp hx with rfl | hx
      · exact h1
      · exact h2 x hx

theorem listMin_le {l : List ℚ} {x : ℚ} (hx : x ∈ l) : listMin l ≤ x := by
  cases l with
  | nil => cases hx
  | cons c xs =>
      obtain ⟨h1, h2⟩ := foldl_min_bounds xs c
      simp only [listMin]
      rcases List.mem_cons.mp hx with rfl | hx
      · exact h1
      · exact h2 x hx

theorem sum_div_le_listMax (l : List ℚ) (h : l ≠ []) :
    l.sum / (l.length : ℚ) ≤ listMax l := by
  have hlen : 0 < (l.length : ℚ) := by
    exact_mod_cast List.length_pos.mpr h
  rw [div_le_iff₀ hlen]
  have hs := List.sum_le_card_nsmul l (listMax l) (fun x hx => le_listMax hx)
  rw [nsmul_eq_mul] at hs
  linarith

theorem listMin_le_sum_div (l : List ℚ) (h : l ≠ []) :
    listMin l ≤ l.sum / (l.length : ℚ) := by
  have hlen : 0 < (l.length : ℚ) := by
    exact_mod_cast List.length_pos.mpr h
  rw [le_div_iff₀ hlen]
  have hs := List.card_nsmul_le_sum l (listMin l) (fun x hx => listMin_le hx)
  rw [nsmul_eq_mul] at hs
  linarith

theorem lookup_mem {ps : List (String × ℚ)} {k : String} {v : ℚ}
    (h : ps.lookup k = some v) : (k, v) ∈ ps := by
  induction ps with
  | nil => simp [List.lookup] at h
  | cons p ps ih =>
      obtain ⟨k', v'⟩ := p
      simp only [List.lookup] at h
      rcases hbeq : (k == k') with _ | _
      · rw [hbeq] at h
        exact List.mem_cons_of_mem _ (ih h)
      · rw [hbeq] at h
        injection h with hv
        have hk : k = k' := eq_of_beq hbeq
        subst hk; subst hv
        exact List.mem_cons_self _ _

theorem lookupProb_unit {ps : List (String × ℚ)}
    (h : ∀ l v, (l, v) ∈ ps → 0 ≤ v ∧ v ≤ 1) (l : String) :
    0 ≤ lookupProb ps l ∧ lookupProb ps l ≤ 1 := by
  unfold lookupProb
  cases hh : ps.lookup l with
  | none => simp
  | some v => simpa using h l v (lookup_mem hh)

theorem lookupProb_map (f : String → ℚ) (x : String) (labels : List String) :
    lookupProb (labels.map (fun l => (l, f l))) x =
      if x ∈ labels then f x else 0 := by
  induction labels with
  | nil => simp [lookupProb, List.lookup]
  | cons c ls ih =>
      simp only [List.map_cons, lookupProb, List.lookup]
      rcases hbeq : (x == c) with _ | _
      · have hne : x ≠ c := fun hxc => by simp [hxc] at hbeq
        simp only [lookupProb] at ih
        rw [ih]
        simp [List.mem_cons, hne]
      · have hx : x = c := eq_of_beq hbeq
        subst hx
        simp

theorem foldl_jsMaxStep_spec (p : String → ℚ) (ls : List String) :
    ∀ a : String,
      (ls.foldl (jsMaxStep p) a = a ∧ ∀ b ∈ ls, p b < p a) ∨
      (∃ pre post,
        ls = pre ++ ls.foldl (jsMaxStep p) a :: post ∧
        p a ≤ p (ls.foldl (jsMaxStep p) a) ∧
        (∀ b ∈ ls, p b ≤ p (ls.foldl (jsMaxStep p) a)) ∧
        (∀ b ∈ post, p b < p (ls.foldl (jsMaxStep p) a))) := by
  induction ls with
  | nil => intro a; exact Or.inl ⟨rfl, by simp⟩
  | cons c ls ih =>
      intro a
      simp only [List.foldl_cons]
      by_cases hac : p a > p c
      · have hstep : jsMaxStep p a c = a := if_pos hac
        rw [hstep]
        rcases ih a with ⟨heq, hlt⟩ | ⟨pre, post, hdec, hle, hall, hpost⟩
        · left
          refine ⟨heq, ?_⟩
          intro b hb
          rcases List.mem_cons.mp hb with rfl | hb
          · exact hac
          · exact hlt b hb
        · right
          refine ⟨c :: pre, post, ?_, hle, ?_, hpost⟩
          · rw [List.cons_append, ← hdec]
          · intro b hb
            rcases List.mem_cons.mp hb with rfl | hb
            · exact le_of_lt (lt_of_lt_of_le hac hle)
            · exact hall b hb
      · have hstep : jsMaxStep p a c = c := if_neg hac
        push_neg at hac
        rw [hstep]
        rcases ih c with ⟨heq, hlt⟩ | ⟨pre, post, hdec, hle, hall, hpost⟩
        · right
          rw [heq]
          refine ⟨[], ls, by simp, hac, ?_, hlt⟩
          intro b hb
          rcases List.mem_cons.mp hb with rfl | hb
          · exact le_refl (p b)
          · exact le_of_lt (hlt b hb)
        · right
          refine ⟨c :: pre, post, ?_, le_trans hac hle, ?_, hpost⟩
          · rw [List.cons_append, ← hdec]
          · intro b hb
            rcases List.mem_cons.mp hb with rfl | hb
            · exact hle
            · exact hall b hb

theorem argmaxJS_spec (p : String → ℚ) (l : String) (ls : List String) :
    ∃ pre post,
      l :: ls = pre ++ argmaxJS p (l :: ls) :: post ∧
      (∀ b ∈ l :: ls, p b ≤ p (argmaxJS p (l :: ls))) ∧
      (∀ b ∈ post, p b < p (argmaxJS p (l :: ls))) := by
  simp only [argmaxJS]
  rcases foldl_jsMaxStep_spec p ls l with ⟨heq, hlt⟩ | ⟨pre, post, hdec, hle, hall, hpost⟩
  · refine ⟨[], ls, by rw [heq]; simp, ?_, ?_⟩
    · intro b hb
      rcases List.mem_cons.mp hb with rfl | hb
      · rw [heq]
      · rw [heq]
        exact le_of_lt (hlt b hb)
    · intro b hb
      rw [heq]
      exact hlt b hb
  · refine ⟨l :: pre, post, ?_, ?_, hpost⟩
    · rw [List.cons_append, ← hdec]
    · intro b hb
      rcases List.mem_cons.mp hb with rfl | hb
      · exact hle
      · exact hall b hb

theorem foldl_avg_unit {α : Type} (g : α → ℚ) (l : List α)
    (h : ∀ x ∈ l, 0 ≤ g x ∧ g x ≤ 1) :
    0 ≤ (l.foldl (fun acc x => acc + g x) 0) / (l.length : ℚ) ∧
    (l.foldl (fun acc x => acc + g x) 0) / (l.length : ℚ) ≤ 1 := by
  rw [foldl_add_eq, zero_add]
  rcases eq_or_ne l [] with rfl | hne
  · simp
  · have hlen : 0 < (l.length : ℚ) := by
      exact_mod_cast List.length_pos.mpr hne
    have hsum0 : 0 ≤ (l.map g).sum := by
      have hs := List.card_nsmul_le_sum (l.map g) 0 ?_
      · simpa using hs
      · intro x hx
        obtain ⟨y, hy, rfl⟩ := List.mem_map.mp hx
        exact (h y hy).1
    have hsum1 : (l.map g).sum ≤ (l.length : ℚ) := by
      have hs := List.sum_le_card_nsmul (l.map g) 1 ?_
      · simpa [nsmul_eq_mul] using hs
      · intro x hx
        obtain ⟨y, hy, rfl⟩ := List.mem_map.mp hx
        exact (h y hy).2
    exact ⟨div_nonneg hsum0 (le_of_lt hlen), by rw [div_le_one hlen]; exact hsum1⟩

theorem argmaxJS_mem (p : String → ℚ) (l : String) (ls : List String) :
    argmaxJS p (l :: ls) ∈ l :: ls := by
  obtain ⟨pre, post, hdec, -, -⟩ := argmaxJS_spec p l ls
  have hmem : argmaxJS p (l :: ls) ∈ pre ++ argmaxJS p (l :: ls) :: post := by simp
  rw [← hdec] at hmem
  exact hmem

theorem clamp_comm (x : ℚ) : max 0 (min 100 x) = min 100 (max 0 x) := by
  simp only [max_def, min_def]
  split_ifs <;> linarith

/-- C4: for every `eyeData` and `expressionData` with all components in
`[0,1]`, the per-frame stress value equals exactly
`0.3 * mean(leftEyeBlink, rightEyeBlink) + 0.4 * browFurrow +
0.3 * mouthFrown`, and this value lies in `[0,1]`. -/
theorem c4_stress_formula_and_bounds (eye : EyeData) (expr : ExpressionData)
    (h1 : 0 ≤ eye.leftEyeBlink ∧ eye.leftEyeBlink ≤ 1)
    (h2 : 0 ≤ eye.rightEyeBlink ∧ eye.rightEyeBlink ≤ 1)
    (_h3 : 0 ≤ eye.eyeLookDown ∧ eye.eyeLookDown ≤ 1)
    (_h4 : 0 ≤ eye.eyeLookUp ∧ eye.eyeLookUp ≤ 1)
    (_h5 : 0 ≤ expr.mouthSmile ∧ expr.mouthSmile ≤ 1)
    (h6 : 0 ≤ expr.mouthFrown ∧ expr.mouthFrown ≤ 1)
    (h7 : 0 ≤ expr.browFurrow ∧ expr.browFurrow ≤ 1)
    (_h8 : 0 ≤ expr.jawOpen ∧ expr.jawOpen ≤ 1) :
    stress eye expr =
      3 / 10 * ((eye.leftEyeBlink + eye.rightEyeBlink) / 2) +
        4 / 10 * expr.browFurrow + 3 / 10 * expr.mouthFrown ∧
    0 ≤ stress eye expr ∧ stress eye expr ≤ 1 := by
  obtain ⟨h1a, h1b⟩ := h1
  obtain ⟨h2a, h2b⟩ := h2
  obtain ⟨h6a, h6b⟩ := h6
  obtain ⟨h7a, h7b⟩ := h7
  unfold stress
  refine ⟨by ring, by linarith, by linarith⟩

/-- C4 witness: the theorem instantiated at concrete all-zero inputs. -/
theorem c4_witness :
    ((0:ℚ) ≤ zeroEye.leftEyeBlink ∧ zeroEye.leftEyeBlink ≤ 1) ∧
    (stress zeroEye zeroExpr =
        3 / 10 * ((zeroEye.leftEyeBlink + zeroEye.rightEyeBlink) / 2) +
          4 / 10 * zeroExpr.browFurrow + 3 / 10 * zeroExpr.mouthFrown ∧
      0 ≤ stress zeroEye zeroExpr ∧ stress zeroEye zeroExpr ≤ 1) :=
  ⟨by norm_num [zeroEye],
   c4_stress_formula_and_bounds zeroEye zeroExpr
     (by norm_num [zeroEye]) (by norm_num [zeroEye]) (by norm_num [zeroEye])
     (by norm_num [zeroEye]) (by norm_num [zeroExpr]) (by norm_num [zeroExpr])
     (by norm_num [zeroExpr]) (by norm_num [zeroExpr])⟩

/-- C3: aggregating an empty series does not fail and yields zero stress
statistics, no expression or authenticity aggregate, credibility 100 and
status `high`. -/
theorem c3_empty_series_aggregation :
    (buildAnalysisResults []).summary.averageStressScore = 0 ∧
    (buildAnalysisResults []).summary.maxStressScore = 0 ∧
    (buildAnalysisResults []).summary.minStressScore = 0 ∧
    (buildAnalysisResults []).expression.average = none ∧
    (buildAnalysisResults []).authenticity.average = none ∧
    (buildAnalysisResults []).finalResult.credibilityScore = 100 ∧
    (buildAnalysisResults []).finalResult.status = "high" := by
  norm_num [buildAnalysisResults, avgStress, maxStress, minStress, averageExpression,
    averageAuthenticity, framesWithExpression, framesWithAuthenticity, statusOf,
    clampedCredibility, credibilityBeforeClamp, jsRound]

/-- C7: for every series, the aggregated stress statistics satisfy
`minStress ≤ averageStress ≤ maxStress`. -/
theorem c7_stress_stats_ordered (series : List ObservationRecord) :
    (buildAnalysisResults series).summary.minStressScore ≤
      (buildAnalysisResults series).summary.averageStressScore ∧
    (buildAnalysisResults series).summary.averageStressScore ≤
      (buildAnalysisResults series).summary.maxStressScore := by
  show minStress series ≤ avgStress series ∧ avgStress series ≤ maxStress series
  rcases eq_or_ne series [] with rfl | hne
  · norm_num [minStress, avgStress, maxStress]
  · have hlen0 : ¬ series.length = 0 := by
      simpa using fun h => hne (List.length_eq_zero.mp h)
    have hmapne : series.map (·.stressScore) ≠ [] := by
      simpa using hne
    have hmaplen : (series.map (·.stressScore)).length = series.length :=
      List.length_map _ _
    rw [minStress, avgStress, maxStress, if_neg hlen0, if_neg hlen0, if_neg hlen0,
      foldl_add_eq, zero_add]
    constructor
    · have h := listMin_le_sum_div (series.map (·.stressScore)) hmapne
      rw [hmaplen] at h
      exact h
    · have h := sum_div_le_listMax (series.map (·.stressScore)) hmapne
      rw [hmaplen] at h
      exact h

theorem averageAuthenticity_genuine (series : List ObservationRecord)
    (a : AuthenticityPrediction) (h : averageAuthenticity series = some a) :
    lookupProb a.probabilities "Genuine" = avgAuthProb series "Genuine" := by
  unfold averageAuthenticity at h
  by_cases hl : (framesWithAuthenticity series).length = 0
  · simp [hl] at h
  · rw [if_neg hl] at h
    injection h with h
    subst h
    rw [lookupProb_map]
    simp [authenticityLabels]

theorem averageExpression_lookup (series : List ObservationRecord)
    (e : ExpressionPrediction) (h : averageExpression series = some e) :
    lookupProb e.probabilities e.expression = avgExprProb series e.expression := by
  unfold averageExpression at h
  by_cases hl : (framesWithExpression series).length = 0
  · simp [hl] at h
  · rw [if_neg hl] at h
    injection h with h
    subst h
    rw [lookupProb_map]
    have hmem : argmaxJS (avgExprProb series) expressionLabels ∈ expressionLabels := by
      rw [show expressionLabels =
        "Angry" :: ["Disgust", "Fear", "Happy", "Neutral", "Sad", "Surprise"] from rfl]
      exact argmaxJS_mem _ _ _
    rw [if_pos hmem]

theorem credBeforeClamp_eq (series : List ObservationRecord) :
    credibilityBeforeClamp series =
      (let s1 : ℚ := 100 - avgStress series * 40
       let s2 : ℚ :=
         if (averageAuthenticity series).isSome then
           s1 - (1 - avgAuthProb series "Genuine") * 30
         else s1
       match averageExpression series with
       | some e =>
           if e.expression ∈ negativeExpressions then
             s2 - avgExprProb series e.expression * 30
           else s2
       | none => s2) := by
  unfold credibilityBeforeClamp
  cases hA : averageAuthenticity series with
  | none =>
      cases hE : averageExpression series with
      | none => simp
      | some e => simp [averageExpression_lookup series e hE]
  | some a =>
      cases hE : averageExpression series with
      | none => simp [averageAuthenticity_genuine series a hA]
      | some e =>
          simp [averageAuthenticity_genuine series a hA,
            averageExpression_lookup series e hE]

/-- C1: for every accumulated series, the reported credibility score is
exactly: start at 100, subtract `averageStress * 40`, subtract
`(1 - mean Genuine probability) * 30` when an authenticity aggregate
exists (missing per-record Genuine probabilities counting as 0), subtract
`(mean probability of the aggregate label) * 30` when an expression
aggregate exists with label in `{Angry, Disgust, Fear, Sad}`, clamp to
`[0, 100]` and round to the nearest integer. -/
theorem c1_credibility_formula (series : List ObservationRecord) :
    (buildAnalysisResults series).finalResult.credibilityScore =
      specCredibilityScore series := by
  show jsRound (clampedCredibility series) = specCredibilityScore series
  rw [clampedCredibility, clamp_comm, credBeforeClamp_eq]
  rfl

/-- C2 (amended): for both aggregates the argmax picks a label attaining
the maximal mean, but ties resolve to the LATER label in the fixed
enumeration order (last max wins): every label strictly after the chosen
one has strictly smaller mean, and for authenticity a `Fake`/`Genuine`
tie yields `Genuine`, not `Fake`. -/
theorem c2_argmax_last_max_wins (series : List ObservationRecord)
    (he : framesWithExpression series ≠ [])
    (ha : framesWithAuthenticity series ≠ []) :
    (∃ e, averageExpression series = some e ∧
      ∃ pre post, expressionLabels = pre ++ e.expression :: post ∧
        (∀ l ∈ expressionLabels,
          avgExprProb series l ≤ avgExprProb series e.expression) ∧
        (∀ l ∈ post,
          avgExprProb series l < avgExprProb series e.expression)) ∧
    (∃ a, averageAuthenticity series = some a ∧
      (avgAuthProb series "Fake" ≤ avgAuthProb series "Genuine" →
        a.authenticity = "Genuine") ∧
      (avgAuthProb series "Genuine" < avgAuthProb series "Fake" →
        a.authenticity = "Fake")) := by
  have hle : ¬ (framesWithExpression series).length = 0 := by
    simpa [List.length_eq_zero] using he
  have hla : ¬ (framesWithAuthenticity series).length = 0 := by
    simpa [List.length_eq_zero] using ha
  constructor
  · refine ⟨_, by rw [averageExpression, if_neg hle], ?_⟩
    have hspec := argmaxJS_spec (avgExprProb series) "Angry"
      ["Disgust", "Fear", "Happy", "Neutral", "Sad", "Surprise"]
    rw [show ("Angry" :: ["Disgust", "Fear", "Happy", "Neutral", "Sad", "Surprise"])
      = expressionLabels from rfl] at hspec
    exact hspec
  · refine ⟨_, by rw [averageAuthenticity, if_neg hla], ?_, ?_⟩
    · intro hfg
      show argmaxJS (avgAuthProb series) authenticityLabels = "Genuine"
      show (if avgAuthProb series "Fake" > avgAuthProb series "Genuine"
        then "Fake" else "Genuine") = "Genuine"
      rw [if_neg (not_lt.mpr hfg)]
    · intro hgf
      show argmaxJS (avgAuthProb series) authenticityLabels = "Fake"
      show (if avgAuthProb series "Fake" > avgAuthProb series "Genuine"
        then "Fake" else "Genuine") = "Fake"
      rw [if_pos hgf]

/-- C2 counterexample: the one-record series with authenticity
probabilities `Fake = Genuine = 1/2` means the two labels tie, yet the
aggregate label is `Genuine` — the claim's tie-break toward `Fake` (first
max wins) is false on the code. -/
theorem c2_counterexample :
    avgAuthProb [recTie] "Fake" = avgAuthProb [recTie] "Genuine" ∧
    (averageAuthenticity [recTie]).map (·.authenticity) = some "Genuine" ∧
    ("Genuine" : String) ≠ "Fake" := by
  have bq1 : (("Genuine" : String) == "Fake") = false := by decide
  have bq2 : (("Genuine" : String) == "Genuine") = true := by decide
  have bq3 : (("Fake" : String) == "Fake") = true := by decide
  refine ⟨?_, ?_, by decide⟩
  · norm_num [avgAuthProb, authProbOf, framesWithAuthenticity, recTie, lookupProb,
      List.lookup, bq1, bq2, bq3]
  · norm_num [averageAuthenticity, framesWithAuthenticity, recTie, argmaxJS,
      jsMaxStep, authenticityLabels, avgAuthProb, authProbOf, lookupProb,
      List.lookup, bq1, bq2, bq3]

/-- C2 witness: a series with one record carrying both predictions
satisfies the amended theorem's hypotheses and conclusion. -/
theorem c2_witness :
    framesWithExpression [recBoth] ≠ [] ∧ framesWithAuthenticity [recBoth] ≠ [] ∧
    ((∃ e, averageExpression [recBoth] = some e ∧
      ∃ pre post, expressionLabels = pre ++ e.expression :: post ∧
        (∀ l ∈ expressionLabels,
          avgExprProb [recBoth] l ≤ avgExprProb [recBoth] e.expression) ∧
        (∀ l ∈ post,
          avgExprProb [recBoth] l < avgExprProb [recBoth] e.expression)) ∧
    (∃ a, averageAuthenticity [recBoth] = some a ∧
      (avgAuthProb [recBoth] "Fake" ≤ avgAuthProb [recBoth] "Genuine" →
        a.authenticity = "Genuine") ∧
      (avgAuthProb [recBoth] "Genuine" < avgAuthProb [recBoth] "Fake" →
        a.authenticity = "Fake"))) := by
  have h1 : framesWithExpression [recBoth] ≠ [] := by
    simp [framesWithExpression, recBoth]
  have h2 : framesWithAuthenticity [recBoth] ≠ [] := by
    simp [framesWithAuthenticity, recBoth]
  exact ⟨h1, h2, c2_argmax_last_max_wins [recBoth] h1 h2⟩

/-- C6 (amended): the status bucket is computed from the clamped but
UN-rounded credibility value (`low` below 40, `medium` in `[40, 70)`,
`high` at or above 70), not from the rounded integer reported as
`credibilityScore`; the summary string is the fixed Arabic template
built from the Arabic status label and the rounded score. -/
theorem c6_status_bucket_unrounded (series : List ObservationRecord) :
    ((buildAnalysisResults series).finalResult.status = "low" ↔
      clampedCredibility series < 40) ∧
    ((buildAnalysisResults series).finalResult.status = "medium" ↔
      40 ≤ clampedCredibility series ∧ clampedCredibility series < 70) ∧
    ((buildAnalysisResults series).finalResult.status = "high" ↔
      70 ≤ clampedCredibility series) ∧
    (buildAnalysisResults series).finalResult.credibilityScore =
      jsRound (clampedCredibility series) ∧
    (buildAnalysisResults series).finalResult.summary =
      "مصداقية " ++ (buildAnalysisResults series).finalResult.statusAr ++ " (" ++
        toString ((buildAnalysisResults series).finalResult.credibilityScore) ++
        "/100)" := by
  have hlm : ("low" : String) ≠ "medium" := by decide
  have hlh : ("low" : String) ≠ "high" := by decide
  have hml : ("medium" : String) ≠ "low" := by decide
  have hmh : ("medium" : String) ≠ "high" := by decide
  have hhl : ("high" : String) ≠ "low" := by decide
  have hhm : ("high" : String) ≠ "medium" := by decide
  refine ⟨?_, ?_, ?_, rfl, rfl⟩
  · show statusOf series = "low" ↔ clampedCredibility series < 40
    unfold statusOf
    split_ifs with h1 h2
    · simp [h1]
    · simp [hml, h1]
    · simp [hhl, h1]
  · show statusOf series = "medium" ↔
      40 ≤ clampedCredibility series ∧ clampedCredibility series < 70
    unfold statusOf
    split_ifs with h1 h2
    · simp only [hlm, false_iff]
      intro hc
      linarith [hc.1]
    · simp only [true_iff]
      exact ⟨not_lt.mp h1, h2⟩
    · simp only [hhm, false_iff]
      intro hc
      exact h2 hc.2
  · show statusOf series = "high" ↔ 70 ≤ clampedCredibility series
    unfold statusOf
    split_ifs with h1 h2
    · simp only [hlh, false_iff]
      intro hc
      linarith
    · simp only [hmh, false_iff]
      intro hc
      linarith
    · simp only [true_iff]
      exact not_lt.mp h2

/-- C6 counterexample: a single record with stress 0.76 yields a clamped
credibility of 69.6, which is reported as the rounded score 70 but
bucketed as `medium` — contradicting the claim that a reported score of
at least 70 maps to `high`. -/
theorem c6_counterexample :
    (buildAnalysisResults [rec76]).finalResult.credibilityScore = 70 ∧
    (buildAnalysisResults [rec76]).finalResult.status = "medium" ∧
    ("medium" : String) ≠ "high" := by
  refine ⟨?_, ?_, by decide⟩
  · norm_num [buildAnalysisResults, jsRound, clampedCredibility,
      credibilityBeforeClamp, avgStress, averageAuthenticity, averageExpression,
      framesWithExpression, framesWithAuthenticity, rec76]
  · norm_num [buildAnalysisResults, statusOf, clampedCredibility,
      credibilityBeforeClamp, avgStress, averageAuthenticity, averageExpression,
      framesWithExpression, framesWithAuthenticity, rec76]

theorem runAnalysisFrom_length (m : Bool) (fs : List FrameInput) :
    ∀ k : ℕ, (runAnalysisFrom m k fs).length = fs.length := by
  induction fs with
  | nil => intro k; rfl
  | cons f fs ih => intro k; simp [runAnalysisFrom, ih]

theorem runAnalysisFrom_getD (m : Bool) (fs : List FrameInput) :
    ∀ k i : ℕ, i < fs.length →
      (runAnalysisFrom m k fs).getD i { record := none, invoked := false } =
        analyzeFrame m (k + i) (fs.getD i noFrame) := by
  induction fs with
  | nil => intro k i h; simp at h
  | cons f fs ih =>
      intro k i h
      cases i with
      | zero => simp [runAnalysisFrom]
      | succ n =>
          have hn : n < fs.length := by simpa using h
          simp only [runAnalysisFrom, List.getD_cons_succ]
          rw [ih (k + 1) n hn]
          congr 1
          omega

/-- C5: with the model loaded, a face in every frame and every classifier
call succeeding, the classifier is invoked on exactly every 10th
processed frame: over 25 processed frames, exactly the 0-indexed frames
{0, 10, 20} carry expression/authenticity predictions, and all other
frames carry none. -/
theorem c5_sampling_cadence (frames : List FrameInput)
    (h25 : frames.length = 25)
    (hface : ∀ f ∈ frames, f.face.isSome)
    (hok : ∀ f ∈ frames, ∃ r, f.classifierOutcome = Except.ok r) :
    ∀ i, i < 25 →
      ((outAt true frames i).invoked ↔ i % 10 = 0) ∧
      (((outAt true frames i).record.bind (·.expressionPrediction)).isSome ↔
        (i = 0 ∨ i = 10 ∨ i = 20)) ∧
      (((outAt true frames i).record.bind (·.authenticityPrediction)).isSome ↔
        (i = 0 ∨ i = 10 ∨ i = 20)) := by
  intro i hi
  have hilen : i < frames.length := by rw [h25]; exact hi
  have hout : outAt true frames i = analyzeFrame true i (frames.getD i noFrame) := by
    unfold outAt runAnalysis
    rw [runAnalysisFrom_getD true frames 0 i hilen]
    norm_num
  have hfmem : frames.getD i noFrame ∈ frames := by
    rw [List.getD_eq_getElem frames noFrame hilen]
    exact List.getElem_mem hilen
  obtain ⟨eye, expr, hfa⟩ :
      ∃ eye expr, (frames.getD i noFrame).face = some (eye, expr) := by
    have hs := hface _ hfmem
    cases hcase : (frames.getD i noFrame).face with
    | none => rw [hcase] at hs; simp at hs
    | some pr =>
        obtain ⟨e1, e2⟩ := pr
        exact ⟨e1, e2, rfl⟩
  obtain ⟨resp, hresp⟩ := hok _ hfmem
  have hmod : i % 10 = 0 ↔ (i = 0 ∨ i = 10 ∨ i = 20) := by omega
  rw [hout]
  unfold analyzeFrame
  rw [hfa, hresp]
  by_cases hmod10 : i % 10 = 0
  · have hbeq : (i % 10 == 0) = true := by simpa using hmod10
    simp [hbeq, predictWithTensorFlowModel, hmod10, hmod.mp hmod10]
  · have hbeq : (i % 10 == 0) = false := by simpa using hmod10
    have hnot : ¬ (i = 0 ∨ i = 10 ∨ i = 20) := fun h => hmod10 (hmod.mpr h)
    simp [hbeq, predictWithTensorFlowModel, hmod10, hnot]

/-- C5 witness: 25 identical frames with a face and a succeeding
classifier call, checked at frame 10. -/
theorem c5_witness :
    (List.replicate 25 cFrame).length = 25 ∧
    cFrame.face.isSome ∧
    (((outAt true (List.replicate 25 cFrame) 10).invoked ↔ 10 % 10 = 0) ∧
      (((outAt true (List.replicate 25 cFrame) 10).record.bind
          (·.expressionPrediction)).isSome ↔ (10 = 0 ∨ 10 = 10 ∨ 10 = 20)) ∧
      (((outAt true (List.replicate 25 cFrame) 10).record.bind
          (·.authenticityPrediction)).isSome ↔ (10 = 0 ∨ 10 = 10 ∨ 10 = 20))) := by
  have hface : ∀ f ∈ List.replicate 25 cFrame, f.face.isSome := by
    intro f hf
    rw [List.eq_of_mem_replicate hf]
    simp [cFrame]
  have hok : ∀ f ∈ List.replicate 25 cFrame,
      ∃ r, f.classifierOutcome = Except.ok r := by
    intro f hf
    rw [List.eq_of_mem_replicate hf]
    exact ⟨cResp, rfl⟩
  exact ⟨by simp, by simp [cFrame],
    c5_sampling_cadence _ (by simp) hface hok 10 (by norm_num)⟩

theorem framesWithExpression_append_none (series : List ObservationRecord)
    (r : ObservationRecord) (h : r.expressionPrediction = none) :
    framesWithExpression (series ++ [r]) = framesWithExpression series := by
  simp [framesWithExpression, List.filter_append, h]

theorem framesWithAuthenticity_append_none (series : List ObservationRecord)
    (r : ObservationRecord) (h : r.authenticityPrediction = none) :
    framesWithAuthenticity (series ++ [r]) = framesWithAuthenticity series := by
  simp [framesWithAuthenticity, List.filter_append, h]

/-- C8: a failing classifier call does not abort the frame pipeline: the
prediction function returns the no-prediction result (`none`) on any
failure and when no model is loaded, the frame's record is still produced
— without predictions — and appending such a record leaves every
prediction aggregate untouched (excluded from the averages rather than
counted as zero evidence). -/
theorem c8_failure_degrades (k : ℕ) (f : FrameInput) (msg : String)
    (hout : f.classifierOutcome = Except.error msg) :
    (∀ m : Bool, predictWithTensorFlowModel m (Except.error msg) = none) ∧
    (∀ outcome, predictWithTensorFlowModel false outcome = none) ∧
    (∀ r, (analyzeFrame true k f).record = some r →
      r.expressionPrediction = none ∧ r.authenticityPrediction = none) ∧
    (∀ (series : List ObservationRecord) (r : ObservationRecord),
      r.expressionPrediction = none → r.authenticityPrediction = none →
      averageExpression (series ++ [r]) = averageExpression series ∧
      averageAuthenticity (series ++ [r]) = averageAuthenticity series ∧
      lastExpression (series ++ [r]) = lastExpression series ∧
      lastAuthenticity (series ++ [r]) = lastAuthenticity series) := by
  refine ⟨?_, ?_, ?_, ?_⟩
  · intro m
    cases m <;> rfl
  · intro outcome
    rfl
  · intro r hr
    unfold analyzeFrame at hr
    rw [hout] at hr
    cases hface : f.face with
    | none => rw [hface] at hr; simp at hr
    | some pr =>
        obtain ⟨e1, e2⟩ := pr
        rw [hface] at hr
        simp only [predictWithTensorFlowModel, ite_self, Option.map_none'] at hr
        injection hr with hr
        subst hr
        exact ⟨rfl, rfl⟩
  · intro series r hre hra
    have hfe := framesWithExpression_append_none series r hre
    have hfa := framesWithAuthenticity_append_none series r hra
    have hge : avgExprProb (series ++ [r]) = avgExprProb series := by
      funext label
      unfold avgExprProb
      rw [hfe]
    have hga : avgAuthProb (series ++ [r]) = avgAuthProb series := by
      funext label
      unfold avgAuthProb
      rw [hfa]
    refine ⟨?_, ?_, ?_, ?_⟩
    · unfold averageExpression
      rw [hfe, hge]
    · unfold averageAuthenticity
      rw [hfa, hga]
    · unfold lastExpression
      rw [hfe]
    · unfold lastAuthenticity
      rw [hfa]

/-- C8 witness: the theorem instantiated on a concrete failing frame and
a concrete series extension. -/
theorem c8_witness :
    failFrame.classifierOutcome = Except.error "network error" ∧
    predictWithTensorFlowModel true (Except.error "network error") = none ∧
    predictWithTensorFlowModel false (Except.ok cResp) = none ∧
    (failRecord.expressionPrediction = none ∧
      failRecord.authenticityPrediction = none) ∧
    averageExpression ([recBoth] ++ [rec76]) = averageExpression [recBoth] :=
  ⟨rfl,
   (c8_failure_degrades 0 failFrame "network error" rfl).1 true,
   (c8_failure_degrades 0 failFrame "network error" rfl).2.1 (Except.ok cResp),
   (c8_failure_degrades 0 failFrame "network error" rfl).2.2.1 failRecord rfl,
   ((c8_failure_degrades 0 failFrame "network error" rfl).2.2.2 [recBoth] rec76
     rfl rfl).1⟩

/-- C9: for every series of well-formed records (stress scores and all
prediction probabilities in `[0,1]`), the credibility value before the
clamp is already at least 0 — the three deductions total at most
40 + 30 + 30 = 100 — so the lower clamp never changes the value and the
reported score lies in `[0, 100]` without it. -/
theorem c9_no_lower_clamp (series : List ObservationRecord)
    (h : ∀ r ∈ series, WellFormedRecord r) :
    0 ≤ credibilityBeforeClamp series ∧
    clampedCredibility series = min 100 (credibilityBeforeClamp series) ∧
    0 ≤ (buildAnalysisResults series).finalResult.credibilityScore ∧
    (buildAnalysisResults series).finalResult.credibilityScore ≤ 100 := by
  have havg : 0 ≤ avgStress series ∧ avgStress series ≤ 1 := by
    unfold avgStress
    split_ifs with h0
    · norm_num
    · exact foldl_avg_unit ObservationRecord.stressScore series
        (fun r hr => ⟨(h r hr).1, (h r hr).2.1⟩)
  have hgen : 0 ≤ avgAuthProb series "Genuine" ∧ avgAuthProb series "Genuine" ≤ 1 := by
    unfold avgAuthProb
    apply foldl_avg_unit (authProbOf "Genuine")
    intro r hr
    have hw := h r (List.mem_of_mem_filter hr)
    unfold authProbOf
    cases hp : r.authenticityPrediction with
    | none => norm_num
    | some pr =>
        simpa using lookupProb_unit (fun l v hlv => hw.2.2.2 pr hp l v hlv) "Genuine"
  have hexpr : ∀ lbl : String, 0 ≤ avgExprProb series lbl ∧ avgExprProb series lbl ≤ 1 := by
    intro lbl
    unfold avgExprProb
    apply foldl_avg_unit (exprProbOf lbl)
    intro r hr
    have hw := h r (List.mem_of_mem_filter hr)
    unfold exprProbOf
    cases hp : r.expressionPrediction with
    | none => norm_num
    | some pr =>
        simpa using lookupProb_unit (fun l v hlv => hw.2.2.1 pr hp l v hlv) lbl
  obtain ⟨ha1, ha2⟩ := havg
  obtain ⟨hg1, hg2⟩ := hgen
  have hbounds : 0 ≤ credibilityBeforeClamp series ∧
      credibilityBeforeClamp series ≤ 100 := by
    rw [credBeforeClamp_eq]
    cases hA : averageAuthenticity series with
    | none =>
        cases hE : averageExpression series with
        | none =>
            simp only [Option.isSome_none, Bool.false_eq_true, if_false]
            show 0 ≤ 100 - avgStress series * 40 ∧
              100 - avgStress series * 40 ≤ 100
            constructor <;> linarith
        | some e =>
            have hb := hexpr e.expression
            simp only [Option.isSome_none, Bool.false_eq_true, if_false]
            split_ifs with hneg
            · show 0 ≤ 100 - avgStress series * 40 -
                  avgExprProb series e.expression * 30 ∧
                100 - avgStress series * 40 -
                  avgExprProb series e.expression * 30 ≤ 100
              constructor <;> linarith [hb.1, hb.2]
            · show 0 ≤ 100 - avgStress series * 40 ∧
                100 - avgStress series * 40 ≤ 100
              constructor <;> linarith
    | some a =>
        cases hE : averageExpression series with
        | none =>
            simp only [Option.isSome_some, if_true]
            show 0 ≤ 100 - avgStress series * 40 -
                (1 - avgAuthProb series "Genuine") * 30 ∧
              100 - avgStress series * 40 -
                (1 - avgAuthProb series "Genuine") * 30 ≤ 100
            constructor <;> linarith
        | some e =>
            have hb := hexpr e.expression
            simp only [Option.isSome_some, if_true]
            split_ifs with hneg
            · show 0 ≤ 100 - avgStress series * 40 -
                  (1 - avgAuthProb series "Genuine") * 30 -
                  avgExprProb series e.expression * 30 ∧
                100 - avgStress series * 40 -
                  (1 - avgAuthProb series "Genuine") * 30 -
                  avgExprProb series e.expression * 30 ≤ 100
              constructor <;> linarith [hb.1, hb.2]
            · show 0 ≤ 100 - avgStress series * 40 -
                  (1 - avgAuthProb series "Genuine") * 30 ∧
                100 - avgStress series * 40 -
                  (1 - avgAuthProb series "Genuine") * 30 ≤ 100
              constructor <;> linarith
  have hclamp : clampedCredibility series = min 100 (credibilityBeforeClamp series) := by
    unfold clampedCredibility
    rw [max_eq_right]
    exact le_min (by norm_num) hbounds.1
  refine ⟨hbounds.1, hclamp, ?_, ?_⟩
  · show 0 ≤ jsRound (clampedCredibility series)
    unfold jsRound
    rw [hclamp]
    apply Int.floor_nonneg.mpr
    have hm : 0 ≤ min 100 (credibilityBeforeClamp series) :=
      le_min (by norm_num) hbounds.1
    linarith
  · show jsRound (clampedCredibility series) ≤ 100
    unfold jsRound
    rw [hclamp]
    have h1 : min 100 (credibilityBeforeClamp series) + 1 / 2 ≤ (201 : ℚ) / 2 := by
      have hm : min 100 (credibilityBeforeClamp series) ≤ 100 := min_le_left _ _
      linarith
    calc ⌊min 100 (credibilityBeforeClamp series) + 1 / 2⌋
        ≤ ⌊(201 : ℚ) / 2⌋ := Int.floor_le_floor h1
      _ = 100 := by norm_num

/-- C9 witness: the theorem instantiated on the singleton series of the
well-formed record with stress 0.76. -/
theorem c9_witness :
    (0 ≤ rec76.stressScore ∧ rec76.stressScore ≤ 1) ∧
    0 ≤ credibilityBeforeClamp [rec76] ∧
    clampedCredibility [rec76] = min 100 (credibilityBeforeClamp [rec76]) ∧
    0 ≤ (buildAnalysisResults [rec76]).finalResult.credibilityScore ∧
    (buildAnalysisResults [rec76]).finalResult.credibilityScore ≤ 100 := by
  have hw : ∀ r ∈ [rec76], WellFormedRecord r := by
    intro r hr
    rw [List.mem_singleton] at hr
    subst hr
    refine ⟨by norm_num [rec76], by norm_num [rec76], ?_, ?_⟩ <;>
      intro pr hpr <;> simp [rec76] at hpr
  exact ⟨⟨by norm_num [rec76], by norm_num [rec76]⟩, c9_no_lower_clamp [rec76] hw⟩

/-- C10 (amended): when at least one video chunk was recorded, the
end-of-session save routine always clears both the recorded chunks and
the accumulated observation series on return — also when building or
persisting the summary fails, so a failed save discards the observations
rather than retaining them; but when no chunk was recorded the routine
returns early and leaves the state, series included, untouched. -/
theorem c10_clear_on_save (st : RecorderState) (outcome : Except String Unit)
    (h : st.recordedChunks ≠ []) :
    (saveRecordingState st outcome).analysisData = [] ∧
    (saveRecordingState st outcome).recordedChunks = [] ∧
    (∀ st2 : RecorderState, st2.recordedChunks = [] →
      saveRecordingState st2 outcome = st2) := by
  have hl : ¬ st.recordedChunks.length = 0 := by
    simpa [List.length_eq_zero] using h
  unfold saveRecordingState
  rw [if_neg hl]
  refine ⟨?_, ?_, ?_⟩
  · cases outcome <;> rfl
  · cases outcome <;> rfl
  · intro st2 h2
    rw [if_pos (by simp [h2])]

/-- C10 counterexample: with no recorded video chunks the routine returns
early, so even a failing save leaves the observation series intact — the
routine does not "always" clear the series when it returns. -/
theorem c10_counterexample :
    (saveRecordingState { recordedChunks := [], analysisData := [rec76] }
        (Except.error "save failed")).analysisData = [rec76] ∧
    [rec76] ≠ ([] : List ObservationRecord) := by
  constructor
  · rfl
  · simp

/-- C10 witness: the amended theorem applied to a state with one recorded
chunk and a failing save. -/
theorem c10_witness :
    ({ recordedChunks := [7], analysisData := [recTie] } : RecorderState).recordedChunks ≠ [] ∧
    (saveRecordingState { recordedChunks := [7], analysisData := [recTie] }
        (Except.error "persist failed")).analysisData = [] ∧
    (saveRecordingState { recordedChunks := [7], analysisData := [recTie] }
        (Except.error "persist failed")).recordedChunks = [] :=
  ⟨by simp,
   (c10_clear_on_save { recordedChunks := [7], analysisData := [recTie] }
     (Except.error "persist failed") (by simp)).1,
   (c10_clear_on_save { recordedChunks := [7], analysisData := [recTie] }
     (Except.error "persist failed") (by simp)).2.1⟩
